import Mathlib

/-!
# Verification of the Biz_Pilot_AI caching / orchestration subsystem

Shallow embedding of the code in `src/utils/redis_cache.py`,
`src/utils/file_handler.py`, `src/utils/analytics.py`,
`src/utils/forecast.py`, `src/utils/research.py`, `src/utils/llm.py`
and `src/main.py`, together with proofs (and refutations) of the
claims of the spec about it.

Modelling conventions:
* Python values that flow through the JSON cache are modelled by the
  inductive `PyVal`; the JSON documents produced by `json.dumps` with
  `CustomJSONEncoder` are modelled by `JVal`.  The Redis backend stores
  the serialized document; since real-world JSON printing/parsing is a
  bijection on JSON documents, the store holds the `JVal` directly.
* The Redis server state is a finite association list from string keys
  to entries `(value, ttl)`.  `enabled = false` models the "disabled
  mode" the cache transitions to when the backend is unreachable.
* Wall-clock dates are day numbers (`Nat`); "the date advances by one
  day" is `d + 1`.
-/

namespace BizPilot

/-- Python values handled by the cache layer.  Constructors past `dict`
model the non-JSON-native serializable types that `CustomJSONEncoder`
(redis_cache.py lines 42-58) coerces: `datetime`/`date` (kept here as
their ISO string), and tuples (which `json.dumps` emits as arrays). -/
inductive PyVal : Type where
  | none : PyVal
  | bool : Bool → PyVal
  | int : Int → PyVal
  | str : String → PyVal
  | list : List PyVal → PyVal
  | dict : List (String × PyVal) → PyVal
  | datetime : String → PyVal
  | tuple : List PyVal → PyVal
deriving Repr, BEq

/-- JSON documents (what `json.dumps` produces / `json.loads` consumes). -/
inductive JVal : Type where
  | null : JVal
  | bool : Bool → JVal
  | int : Int → JVal
  | str : String → JVal
  | arr : List JVal → JVal
  | obj : List (String × JVal) → JVal
deriving Repr, BEq

mutual
/-- Model of `json.dumps(v, cls=CustomJSONEncoder)`: the default encoder handles
null, bools, ints, strings, lists, tuples (as arrays) and string-keyed
dicts; `CustomJSONEncoder.default` turns `datetime`/`date` into the ISO
string (redis_cache.py line 46). -/
def serialize : PyVal → JVal
  | .none => .null
  | .bool b => .bool b
  | .int n => .int n
  | .str s => .str s
  | .list xs => .arr (serializeList xs)
  | .tuple xs => .arr (serializeList xs)
  | .dict kvs => .obj (serializeDict kvs)
  | .datetime iso => .str iso

def serializeList : List PyVal → List JVal
  | [] => []
  | x :: xs => serialize x :: serializeList xs

def serializeDict : List (String × PyVal) → List (String × JVal)
  | [] => []
  | (k, v) :: kvs => (k, serialize v) :: serializeDict kvs
end

mutual
/-- Model of `json.loads`: a JSON document comes back as null/bool/int/str,
arrays as Python lists, objects as string-keyed dicts.  `json.loads`
never reconstructs datetimes or tuples. -/
def deserialize : JVal → PyVal
  | .null => .none
  | .bool b => .bool b
  | .int n => .int n
  | .str s => .str s
  | .arr xs => .list (deserializeList xs)
  | .obj kvs => .dict (deserializeDict kvs)

def deserializeList : List JVal → List PyVal
  | [] => []
  | x :: xs => deserialize x :: deserializeList xs

def deserializeDict : List (String × JVal) → List (String × PyVal)
  | [] => []
  | (k, v) :: kvs => (k, deserialize v) :: deserializeDict kvs
end

mutual
/-- The JSON-native fragment of `PyVal`: values built from null, bools,
ints, strings, lists and string-keyed dicts only (no datetimes, no
tuples).  On this fragment `json.loads ∘ json.dumps` is the identity. -/
def isJsonNative : PyVal → Bool
  | .none => true
  | .bool _ => true
  | .int _ => true
  | .str _ => true
  | .list xs => isJsonNativeList xs
  | .dict kvs => isJsonNativeDict kvs
  | .datetime _ => false
  | .tuple _ => false

def isJsonNativeList : List PyVal → Bool
  | [] => true
  | x :: xs => isJsonNative x && isJsonNativeList xs

def isJsonNativeDict : List (String × PyVal) → Bool
  | [] => true
  | (_, v) :: kvs => isJsonNative v && isJsonNativeDict kvs
end

/-- A stored cache entry: serialized value plus the TTL it was written
with (`setex` in redis_cache.py line 184). -/
structure Entry : Type where
  val : JVal
  ttl : Nat
deriving Repr, BEq

/-- The Redis cache state: the `enabled` flag of `RedisCache` plus the
key space of the backend as an association list. -/
structure CacheState : Type where
  enabled : Bool
  store : List (String × Entry)
deriving Repr, BEq

/-- Association-list lookup, first match wins (a Redis key space has no
duplicate keys; `storeSet` below preserves that). -/
def lookupStore (store : List (String × Entry)) (key : String) : Option Entry :=
  match store with
  | [] => Option.none
  | (k, e) :: rest => if k = key then some e else lookupStore rest key

/-- Overwrite-or-insert, modelling `SETEX` which replaces any prior
value and TTL unconditionally. -/
def storeSet (store : List (String × Entry)) (key : String) (e : Entry) :
    List (String × Entry) :=
  match store with
  | [] => [(key, e)]
  | (k, e') :: rest =>
      if k = key then (key, e) :: rest else (k, e') :: storeSet rest key e

/-- Model of `RedisCache.get` (redis_cache.py lines 154-175): in disabled mode
return `None`; otherwise look the key up and deserialize.  A miss is
`None`; note a stored JSON `null` also comes back as Python `None`. -/
def cacheGet (st : CacheState) (key : String) : PyVal :=
  if st.enabled then
    match lookupStore st.store key with
    | some e => deserialize e.val
    | Option.none => .none
  else
    .none

/-- Model of `RedisCache.set` (redis_cache.py lines 177-195): in disabled mode
return `False` and change nothing; otherwise serialize and `SETEX`.
Redis rejects a non-positive expire time, which the catch-all handler
turns into `False` with no write. -/
def cacheSet (st : CacheState) (key : String) (value : PyVal) (ttl : Nat) :
    CacheState × Bool :=
  if st.enabled then
    if ttl = 0 then (st, false)
    else ({ st with store := storeSet st.store key ⟨serialize value, ttl⟩ }, true)
  else
    (st, false)

/-- Model of `RedisCache.delete` (redis_cache.py lines 197-208). -/
def cacheDelete (st : CacheState) (key : String) : CacheState × Bool :=
  if st.enabled then
    ({ st with store := st.store.filter (fun e => e.1 ≠ key) }, true)
  else
    (st, false)

/-- Redis `MATCH` glob semantics for the fragment the repository uses:
`*` matches any (possibly empty) run of characters, `?` any single
character, anything else matches itself.  Every recursive call shrinks
`|pattern| + |key|` by at least one, so the fuel used by `globMatchS`
below is always sufficient and the zero-fuel case is unreachable. -/
def globMatchFuel : Nat → List Char → List Char → Bool
  | 0, _, _ => false
  | _ + 1, [], [] => true
  | fuel + 1, '*' :: ps, [] => globMatchFuel fuel ps []
  | fuel + 1, '*' :: ps, c :: cs =>
      globMatchFuel fuel ps (c :: cs) || globMatchFuel fuel ('*' :: ps) cs
  | fuel + 1, '?' :: ps, _ :: cs => globMatchFuel fuel ps cs
  | fuel + 1, p :: ps, c :: cs => (p = c) && globMatchFuel fuel ps cs
  | _ + 1, _ :: _, [] => false
  | _ + 1, [], _ :: _ => false

/-- String-level glob match. -/
def globMatchS (pattern key : String) : Bool :=
  globMatchFuel (pattern.toList.length + key.toList.length + 1)
    pattern.toList key.toList

/-- The keys of a slice of the key space that match a pattern (what one
`SCAN ... MATCH pattern` batch returns). -/
def matchingKeys (pattern : String) (slice : List (String × Entry)) :
    List String :=
  (slice.map Prod.fst).filter (fun k => globMatchS pattern k)

/-- The `SCAN`/pipeline loop of `delete_pattern` (redis_cache.py lines
223-241): `pending` is the portion of the key space the cursor has not
visited yet; each round scans one batch of at most `batchSize` slots,
the matching keys of the batch are deleted from the live store in a
single pipeline, and their number is added to the running count.  The
loop runs at most once per pending slot, so fuel `pending.length`
(supplied by `cacheDeletePattern`) makes the zero-fuel case
unreachable. -/
def deletePatternLoop (pattern : String) (batchSize : Nat) :
    Nat → List (String × Entry) → List (String × Entry) → Nat →
    List (String × Entry) × Nat
  | _, [], store, count => (store, count)
  | 0, _ :: _, store, count => (store, count)
  | fuel + 1, x :: rest, store, count =>
      if batchSize = 0 then (store, count)
      else
        let keys := matchingKeys pattern ((x :: rest).take batchSize)
        deletePatternLoop pattern batchSize fuel ((x :: rest).drop batchSize)
          (store.filter (fun e => !(keys.contains e.1))) (count + keys.length)

/-- Model of `RedisCache.delete_pattern` (redis_cache.py lines 210-248): disabled
mode returns 0; a zero batch size is a Redis `COUNT` error, caught and
turned into 0 with nothing deleted; otherwise run the scan-and-delete
loop over the whole key space. -/
def cacheDeletePattern (st : CacheState) (pattern : String)
    (batchSize : Nat := 100) : CacheState × Nat :=
  if st.enabled then
    if batchSize = 0 then (st, 0)
    else
      let r := deletePatternLoop pattern batchSize st.store.length
        st.store st.store 0
      ({ st with store := r.1 }, r.2)
  else
    (st, 0)

/-- Model of `RedisCache.exists` (redis_cache.py lines 250-259). -/
def cacheExists (st : CacheState) (key : String) : Bool :=
  if st.enabled then (lookupStore st.store key).isSome else false

/-- Model of `RedisCache.increment` (redis_cache.py lines 273-287): pipeline of
`INCR key amount` and `EXPIRE key ttl`.  `INCR` on a missing key starts
from 0; on a key holding a non-integer it is a server error, which the
catch-all turns into `None` (the `EXPIRE` of the failed pipeline does
not commit a change observable through the value map of this model). -/
def cacheIncrement (st : CacheState) (key : String) (amount : Int := 1)
    (ttl : Nat := 3600) : CacheState × Option Int :=
  if st.enabled then
    match lookupStore st.store key with
    | Option.none =>
        ({ st with store := storeSet st.store key ⟨.int amount, ttl⟩ }, some amount)
    | some e =>
        match e.val with
        | .int n =>
            ({ st with store := storeSet st.store key ⟨.int (n + amount), ttl⟩ },
             some (n + amount))
        | _ => (st, Option.none)
  else
    (st, Option.none)

/-- Python truthiness of a value, as used by the `if cached:` /
`if value:` guards: `None`, `False`, `0`, empty strings and empty
containers are falsy. -/
def pyTruthy : PyVal → Bool
  | .none => false
  | .bool b => b
  | .int n => n ≠ 0
  | .str s => s ≠ ""
  | .list xs => ¬ xs.isEmpty
  | .dict kvs => ¬ kvs.isEmpty
  | .tuple xs => ¬ xs.isEmpty
  | .datetime _ => true

/-! ## Key construction and helper functions (redis_cache.py lines 353-444) -/

/-- Model of `RedisCache._generate_key` (redis_cache.py lines 141-144). -/
def generateKey (ns : String) (args : List String) : String :=
  String.intercalate ":" (ns :: args)

/-- Key of `cache_analytics` / `get_cached_analytics` / point deletion in
`invalidate_analytics` (redis_cache.py lines 355-374). -/
def analyticsKey (userId blobName : String) : String :=
  generateKey "analytics" [userId, blobName]

/-- Key of the cached file list (redis_cache.py lines 377-392). -/
def fileListKey (userId : String) : String :=
  generateKey "files" [userId]

/-- Key of a cached forecast (redis_cache.py lines 395-404). -/
def forecastKey (userId blobName : String) (periods : Nat) : String :=
  generateKey "forecast" [userId, blobName, toString periods]

/-- Pattern used by `invalidate_forecast(user_id, blob_name)`
(redis_cache.py line 410). -/
def forecastPattern (userId blobName : String) : String :=
  generateKey "forecast" [userId, blobName, "*"]

/-- Key of a cached preview, built inline in `get_dataframe_preview`
(file_handler.py line 390). -/
def previewKey (userId blobName : String) (numRows : Nat) : String :=
  "preview:" ++ userId ++ ":" ++ blobName ++ ":" ++ toString numRows

/-- Model of `invalidate_file_list` (redis_cache.py lines 389-392). -/
def invalidateFileList (st : CacheState) (userId : String) : CacheState × Bool :=
  cacheDelete st (fileListKey userId)

/-- Model of `invalidate_analytics(user_id, blob_name)` with a concrete blob name
(redis_cache.py lines 369-371): a point delete of the analytics key. -/
def invalidateAnalytics (st : CacheState) (userId blobName : String) :
    CacheState × Nat :=
  let r := cacheDelete st (analyticsKey userId blobName)
  (r.1, if r.2 then 1 else 0)

/-- Model of `invalidate_forecast(user_id, blob_name)` with a concrete blob name
(redis_cache.py lines 409-413): a pattern delete over the periods. -/
def invalidateForecast (st : CacheState) (userId blobName : String) :
    CacheState × Nat :=
  cacheDeletePattern st (forecastPattern userId blobName)

/-- Model of `track_api_usage` (redis_cache.py lines 434-437). -/
def trackApiUsage (st : CacheState) (userId endpoint : String) :
    CacheState × Option Int :=
  cacheIncrement st (generateKey "api_usage" [userId, endpoint]) 1 3600

/-! ## file_handler.py: cache effects of delete and preview -/

/-- The cache invalidations `delete_user_file` performs after the blob
has been deleted (file_handler.py lines 236-238): file list, analytics
for the blob, forecasts for the blob — and nothing else. -/
def deleteUserFileCacheEffect (st : CacheState) (userId blobName : String) :
    CacheState :=
  let st1 := (invalidateFileList st userId).1
  let st2 := (invalidateAnalytics st1 userId blobName).1
  (invalidateForecast st2 userId blobName).1

/-- Model of `get_dataframe_preview` (file_handler.py lines 377-420), with the
blob-loading computation abstracted as `loadPreview` (it reads Azure and
pandas, both external collaborators): on a cache hit the cached value is
returned as-is; on a miss the preview is computed, cached with TTL 300,
and returned. `loadPreview = Option.none` models the dataset having been
deleted (`load_dataframe` raises 404); the `Except` failure carries the
HTTP status. -/
def getDataframePreview (loadPreview : Option PyVal) (st : CacheState)
    (userId blobName : String) (numRows : Nat := 10) (useCache : Bool := true) :
    Except Nat (PyVal × CacheState) :=
  let key := previewKey userId blobName numRows
  let cached := if useCache then cacheGet st key else .none
  if pyTruthy cached then .ok (cached, st)
  else
    match loadPreview with
    | Option.none => .error 404
    | some preview =>
        let st' := if useCache then (cacheSet st key preview 300).1 else st
        .ok (preview, st')

/-! ## analytics.py / forecast.py: the cache-wrapped computations -/

/-- Model of `analyze_sales_data` (analytics.py lines 9-151) with the pandas
column-detection summarizer abstracted as `compute` (the spec treats it
as an external collaborator): check the analytics cache, compute on
miss, write back with `ANALYTICS_TTL = 1800`.  The cached branch fires
only when `use_cache` is set and both identifiers are supplied
(`if use_cache and user_id and blob_name`). -/
def analyzeSalesData (compute : PyVal) (st : CacheState)
    (userId blobName : Option String) (useCache : Bool := true) :
    PyVal × CacheState :=
  match userId, blobName with
  | some u, some b =>
      if useCache && u ≠ "" && b ≠ "" then
        let cached := cacheGet st (analyticsKey u b)
        if pyTruthy cached then (cached, st)
        else (compute, (cacheSet st (analyticsKey u b) compute 1800).1)
      else (compute, st)
  | _, _ => (compute, st)

/-- Model of `forecast_demand` (forecast.py lines 10-110) with the Prophet fit
abstracted as `compute`: check the forecast cache keyed by periods,
compute on miss, write back with `FORECAST_TTL = 3600`. -/
def forecastDemand (compute : PyVal) (st : CacheState) (periods : Nat)
    (userId blobName : Option String) (useCache : Bool := true) :
    PyVal × CacheState :=
  match userId, blobName with
  | some u, some b =>
      if useCache && u ≠ "" && b ≠ "" then
        let cached := cacheGet st (forecastKey u b periods)
        if pyTruthy cached then (cached, st)
        else (compute, (cacheSet st (forecastKey u b periods) compute 3600).1)
      else (compute, st)
  | _, _ => (compute, st)

/-! ## main.py: rate limiting -/

/-- Model of `check_rate_limit` (main.py lines 148-153): increment the usage
counter through the cache; raise 429 only when the returned count is
truthy and exceeds the limit.  The `Bool` is whether HTTP 429 was
raised. -/
def checkRateLimit (st : CacheState) (userId endpoint : String)
    (limit : Int := 100) : CacheState × Bool :=
  let r := trackApiUsage st userId endpoint
  match r.2 with
  | some usage => (r.1, usage ≠ 0 && usage > limit)
  | Option.none => (r.1, false)

/-! ## research.py: SearchManager and the daily search quota

The quota state lives in `self.usage_data`, an in-memory dict loaded
from and persisted to the local JSON file `./search_usage.json`
(research.py lines 23-44).  Dates are modelled as day numbers. -/

/-- The contents of `search_usage.json` / `self.usage_data`. -/
structure UsageData : Type where
  count : Nat
  date : Nat
deriving Repr, BEq, DecidableEq

/-- Model of `SearchManager._reset_if_needed` (research.py lines 38-44). -/
def resetIfNeeded (u : UsageData) (today : Nat) : UsageData :=
  if u.date ≠ today then ⟨0, today⟩ else u

/-- Model of `SearchManager._can_search` (research.py lines 46-48): hard-coded
daily limit of 100. -/
def canSearch (u : UsageData) : Bool :=
  u.count < 100

/-- Outcome of the external Google Custom Search HTTP request, an
external collaborator. -/
inductive ApiResult : Type where
  | success (items : Nat)
  | failure (msg : String)
deriving Repr, BEq, DecidableEq

/-- Observable outcome of `SearchManager.search`. -/
inductive SearchOutcome : Type where
  | results (items : Nat)
  | quotaExhausted
  | apiError (msg : String)
deriving Repr, BEq, DecidableEq

/-- Model of `SearchManager.search` (research.py lines 50-98): reset the counter
if the day rolled over, refuse with a distinguished quota error when the
count has reached 100, otherwise perform the request; only a successful
request increments the counter (the increment at line 84 is skipped when
`requests.get`/`raise_for_status` raised). -/
def searchStep (u : UsageData) (today : Nat) (api : ApiResult) :
    UsageData × SearchOutcome :=
  let u' := resetIfNeeded u today
  if ¬ canSearch u' then (u', .quotaExhausted)
  else
    match api with
    | .success n => ({ u' with count := u'.count + 1 }, .results n)
    | .failure e => (u', .apiError e)

/-- Model of `SearchManager.search` viewed together with the Redis cache state:
research.py does not import `utils.redis_cache` and `search` touches
only `self.usage_data` and the local usage file, so the cache store
passes through unchanged no matter whether it is enabled. -/
def searchWithCache (cacheSt : CacheState) (u : UsageData) (today : Nat)
    (api : ApiResult) : CacheState × UsageData × SearchOutcome :=
  (cacheSt, searchStep u today api)

/-- Runs `K` sequential searches on day `today`, each with a successful API
call (research.py line 84 path). -/
def iterateSearch (k : Nat) (u : UsageData) (today : Nat) : UsageData :=
  match k with
  | 0 => u
  | k + 1 => iterateSearch k (searchStep u today (.success 5)).1 today

/-! ## llm.py: the tool-calling orchestration loop

`call_llm_with_functions` (llm.py lines 227-386).  The model provider
is a function from the conversation to a completion; `json.loads` of a
`arguments` string of a tool call is modelled by its outcome (`RawArgs`);
the `function_executor` callback may return a result or raise.  The
`calls` field of the result is a ghost trace recording each invocation
`function_executor(function_name, function_args)` actually performed
(llm.py line 359), used to state what arguments handlers receive. -/

/-- Outcome of `json.loads(tool_call.function.arguments)` (llm.py line
340): a parsed JSON object, or a `JSONDecodeError`. -/
inductive RawArgs : Type where
  | ok (args : List (String × PyVal))
  | bad
deriving Repr, BEq

/-- A tool call requested by the model. -/
structure ToolCall : Type where
  id : String
  name : String
  args : RawArgs
deriving Repr, BEq

/-- One model completion: optional text content plus requested tool
calls (empty list models `message.tool_calls` being `None`). -/
structure ModelResponse : Type where
  content : Option String
  toolCalls : List ToolCall
deriving Repr, BEq

/-- Conversation messages (llm.py lines 274, 313-333, 345-349, 368-372). -/
inductive Message : Type where
  | user (content : String)
  | assistant (content : Option String) (toolCalls : List ToolCall)
  | tool (toolCallId : String) (content : PyVal)
deriving Repr, BEq

/-- Python `dict.__setitem__`: overwrite the entry for the key in place
(keys of a dict are unique, so replacing the first occurrence is
overwriting the entry), or append a new key at the end. -/
def dictSet (d : List (String × PyVal)) (k : String) (v : PyVal) :
    List (String × PyVal) :=
  match d with
  | [] => [(k, v)]
  | (k', v') :: rest =>
      if k' = k then (k, v) :: rest else (k', v') :: dictSet rest k v

/-- Python `dict.update`: `function_args.update(context)` (llm.py line
353) — every context entry overwrites the model-supplied entry with the
same key. -/
def dictUpdate (d ctx : List (String × PyVal)) : List (String × PyVal) :=
  ctx.foldl (fun acc kv => dictSet acc kv.1 kv.2) d

/-- Dict lookup (first match; a Python dict has unique keys). -/
def pyLookup (d : List (String × PyVal)) (k : String) : Option PyVal :=
  match d with
  | [] => Option.none
  | (k', v) :: rest => if k' = k then some v else pyLookup rest k

/-- The structured payload for non-parseable arguments (llm.py line 343). -/
def invalidArgsPayload : PyVal :=
  .dict [("error", .str "Invalid function arguments")]

/-- The structured payload when the executor raises (llm.py line 364). -/
def execErrorPayload (msg : String) : PyVal :=
  .dict [("error", .str msg), ("status", .str "error")]

/-- A recorded handler invocation: function name and the merged
arguments it was given. -/
abbrev HandlerCall := String × List (String × PyVal)

/-- Processing of one requested tool call (llm.py lines 336-372):
malformed arguments become a tool-result message carrying the
structured invalid-arguments error, with no handler invocation and the
remaining calls unaffected (`continue`); otherwise the context is
merged over the parsed arguments, the executor runs, and a raised
exception becomes a structured error payload. -/
def processToolCall (execFn : String → List (String × PyVal) → Except String PyVal)
    (context : List (String × PyVal)) (tc : ToolCall) :
    Message × List HandlerCall :=
  match tc.args with
  | .bad => (.tool tc.id invalidArgsPayload, [])
  | .ok args =>
      let merged := dictUpdate args context
      match execFn tc.name merged with
      | .ok r => (.tool tc.id r, [(tc.name, merged)])
      | .error e => (.tool tc.id (execErrorPayload e), [(tc.name, merged)])

/-- The messages appended in one tool-calling round: the assistant
message echoing the tool calls, then one tool-result message per call,
in order. -/
def roundMessages (execFn : String → List (String × PyVal) → Except String PyVal)
    (context : List (String × PyVal)) (resp : ModelResponse) : List Message :=
  .assistant resp.content resp.toolCalls ::
    (resp.toolCalls.map (fun tc => (processToolCall execFn context tc).1))

/-- The handler invocations of one round, in execution order. -/
def roundCalls (execFn : String → List (String × PyVal) → Except String PyVal)
    (context : List (String × PyVal)) (resp : ModelResponse) : List HandlerCall :=
  (resp.toolCalls.map (fun tc => (processToolCall execFn context tc).2)).flatten

/-- Python `x or default` on an optional string (llm.py line 305):
`None` and the empty string both fall through to the default. -/
def pyOrElse (c : Option String) (dflt : String) : String :=
  match c with
  | some s => if s = "" then dflt else s
  | Option.none => dflt

/-- The apologetic message returned at the iteration cap (llm.py line 384). -/
def fallbackResponse : String :=
  "I've gathered a lot of information but need to stop here. Please ask a more specific question or break your request into smaller parts."

/-- The fallback for an empty terminal completion (llm.py line 305). -/
def emptyContentFallback : String :=
  "I apologize, but I couldn't generate a response."

/-- Result of the orchestration loop: the response text, the number of
model completions requested, and the ghost trace of handler calls. -/
structure LlmResult : Type where
  response : String
  rounds : Nat
  calls : List HandlerCall
deriving Repr, BEq

/-- The `for iteration in range(max_iterations)` loop of
`call_llm_with_functions` (llm.py lines 277-386), fuel-indexed by the
remaining iterations: with fuel exhausted the fallback answer is
returned; a completion without tool calls is terminal; otherwise all
requested calls are resolved and the loop recurses on the grown
conversation. -/
def callLlmLoop (model : List Message → ModelResponse)
    (execFn : String → List (String × PyVal) → Except String PyVal)
    (context : List (String × PyVal)) :
    Nat → List Message → Nat → List HandlerCall → LlmResult
  | 0, _, rounds, calls => ⟨fallbackResponse, rounds, calls⟩
  | fuel + 1, msgs, rounds, calls =>
      let resp := model msgs
      if resp.toolCalls.isEmpty then
        ⟨pyOrElse resp.content emptyContentFallback, rounds + 1, calls⟩
      else
        callLlmLoop model execFn context fuel
          (msgs ++ roundMessages execFn context resp)
          (rounds + 1) (calls ++ roundCalls execFn context resp)

/-- Model of `call_llm_with_functions` (llm.py lines 227-386), seeded with the
user prompt. -/
def call_llm_with_functions (model : List Message → ModelResponse)
    (execFn : String → List (String × PyVal) → Except String PyVal)
    (context : List (String × PyVal)) (prompt : String)
    (maxIterations : Nat := 5) : LlmResult :=
  callLlmLoop model execFn context maxIterations [.user prompt] 0 []

/-! ## Serialization lemmas -/

mutual
theorem deserialize_serialize :
    ∀ (v : PyVal), isJsonNative v = true → deserialize (serialize v) = v
  | .none, _ => rfl
  | .bool _, _ => rfl
  | .int _, _ => rfl
  | .str _, _ => rfl
  | .list xs, h => by
      simp only [isJsonNative] at h
      simp only [serialize, deserialize, PyVal.list.injEq]
      exact deserializeList_serializeList xs h
  | .dict kvs, h => by
      simp only [isJsonNative] at h
      simp only [serialize, deserialize, PyVal.dict.injEq]
      exact deserializeDict_serializeDict kvs h

theorem deserializeList_serializeList :
    ∀ (xs : List PyVal), isJsonNativeList xs = true →
      deserializeList (serializeList xs) = xs
  | [], _ => rfl
  | x :: xs, h => by
      simp only [isJsonNativeList, Bool.and_eq_true] at h
      simp only [serializeList, deserializeList, List.cons.injEq]
      exact ⟨deserialize_serialize x h.1, deserializeList_serializeList xs h.2⟩

theorem deserializeDict_serializeDict :
    ∀ (kvs : List (String × PyVal)), isJsonNativeDict kvs = true →
      deserializeDict (serializeDict kvs) = kvs
  | [], _ => rfl
  | (k, v) :: kvs, h => by
      simp only [isJsonNativeDict, Bool.and_eq_true] at h
      simp only [serializeDict, deserializeDict, List.cons.injEq, Prod.mk.injEq]
      exact ⟨⟨trivial, deserialize_serialize v h.1⟩,
             deserializeDict_serializeDict kvs h.2⟩
end

/-! ## Store lemmas -/

theorem lookupStore_storeSet_self (store : List (String × Entry))
    (key : String) (e : Entry) :
    lookupStore (storeSet store key e) key = some e := by
  induction store with
  | nil => simp [storeSet, lookupStore]
  | cons hd tl ih =>
      obtain ⟨k, e'⟩ := hd
      by_cases h : k = key
      · simp [storeSet, lookupStore, h]
      · simp [storeSet, lookupStore, h, ih]

theorem lookupStore_storeSet_other (store : List (String × Entry))
    (key k' : String) (e : Entry) (h : k' ≠ key) :
    lookupStore (storeSet store key e) k' = lookupStore store k' := by
  induction store with
  | nil => simp [storeSet, lookupStore, Ne.symm h]
  | cons hd tl ih =>
      obtain ⟨k, e'⟩ := hd
      by_cases hk : k = key
      · subst hk
        simp [storeSet, lookupStore, Ne.symm h]
      · simp only [storeSet, if_neg hk, lookupStore]
        by_cases hk' : k = k'
        · simp [hk']
        · simp [hk', ih]

/-! # Claim C2 — cache round-trip -/

/-- A store holding one analytics document, used to instantiate the
round-trip claims. -/
def c2State : CacheState := ⟨true, []⟩

/-- C2 (counterexample): the claim "for every serializable value v,
`set(k, v, t)` then `get(k)` returns a value equal to v" fails at the
serializable value `datetime("2024-01-01T00:00:00")` with t = 60: the
`CustomJSONEncoder` stores its ISO string, and `get` returns that
string, which is not equal to the datetime. -/
theorem set_get_not_roundtrip_on_datetime :
    cacheGet (cacheSet c2State "k" (.datetime "2024-01-01T00:00:00") 60).1 "k"
        = .str "2024-01-01T00:00:00" ∧
    cacheGet (cacheSet c2State "k" (.datetime "2024-01-01T00:00:00") 60).1 "k"
        ≠ .datetime "2024-01-01T00:00:00" := by
  constructor
  · rfl
  · intro h
    rw [show cacheGet (cacheSet c2State "k" (.datetime "2024-01-01T00:00:00") 60).1 "k"
          = .str "2024-01-01T00:00:00" from rfl] at h
    exact PyVal.noConfusion h

/-- C2 (amended): with the cache enabled and a positive TTL, `set(k,v,t)`
followed immediately by `get(k)` returns a value equal to v for every
JSON-native serializable value (null/bool/int/string and lists and
string-keyed dicts thereof); non-JSON-native serializable values such as
datetimes come back as their JSON coercion instead (previous theorem). -/
theorem cache_set_get_roundtrip (st : CacheState) (k : String) (v : PyVal)
    (t : Nat) (hen : st.enabled = true) (hv : isJsonNative v = true)
    (ht : t ≠ 0) :
    cacheGet (cacheSet st k v t).1 k = v := by
  simp only [cacheSet, hen, if_true, if_neg ht]
  simp only [cacheGet, hen, if_true, lookupStore_storeSet_self]
  exact deserialize_serialize v hv

/-- C2 witness: the round-trip theorem evaluated at a concrete analytics
dictionary with TTL 1800. -/
theorem cache_set_get_roundtrip_witness :
    cacheGet (cacheSet c2State "analytics:u1:f.csv"
        (.dict [("total_rows", .int 42), ("columns", .list [.str "date"])])
        1800).1 "analytics:u1:f.csv"
      = .dict [("total_rows", .int 42), ("columns", .list [.str "date"])] :=
  cache_set_get_roundtrip c2State "analytics:u1:f.csv"
    (.dict [("total_rows", .int 42), ("columns", .list [.str "date"])])
    1800 rfl rfl (by decide)

/-! # Claim C7 — fail-open degradation in disabled mode -/

/-- C7: when the cache store is disabled, every cache operation returns
its absent/false/0 value and leaves the state unchanged, and the
cache-wrapped computations `analyze_sales_data` and `forecast_demand`
still return exactly the computed value — never an error — with the
cache state untouched (no memoization). -/
theorem cache_disabled_degradation (st : CacheState) (hd : st.enabled = false)
    (k pat u b : String) (v compA compF : PyVal) (t p : Nat) (amt : Int) :
    cacheGet st k = .none ∧
    cacheSet st k v t = (st, false) ∧
    cacheDelete st k = (st, false) ∧
    cacheDeletePattern st pat = (st, 0) ∧
    cacheExists st k = false ∧
    cacheIncrement st k amt t = (st, Option.none) ∧
    analyzeSalesData compA st (some u) (some b) = (compA, st) ∧
    forecastDemand compF st p (some u) (some b) = (compF, st) := by
  refine ⟨?_, ?_, ?_, ?_, ?_, ?_, ?_, ?_⟩
  · simp [cacheGet, hd]
  · simp [cacheSet, hd]
  · simp [cacheDelete, hd]
  · simp [cacheDeletePattern, hd]
  · simp [cacheExists, hd]
  · simp [cacheIncrement, hd]
  · simp [analyzeSalesData, cacheGet, hd, pyTruthy, cacheSet]
  · simp [forecastDemand, cacheGet, hd, pyTruthy, cacheSet]

/-- C7 witness: the degradation theorem evaluated on a concrete disabled
state and concrete computed analytics/forecast payloads. -/
theorem cache_disabled_degradation_witness :
    cacheGet ⟨false, []⟩ "analytics:u1:f.csv" = .none ∧
    cacheSet ⟨false, []⟩ "analytics:u1:f.csv" (.int 7) 1800 = (⟨false, []⟩, false) ∧
    cacheDelete ⟨false, []⟩ "analytics:u1:f.csv" = (⟨false, []⟩, false) ∧
    cacheDeletePattern ⟨false, []⟩ "analytics:u1:*" = (⟨false, []⟩, 0) ∧
    cacheExists ⟨false, []⟩ "analytics:u1:f.csv" = false ∧
    cacheIncrement ⟨false, []⟩ "analytics:u1:f.csv" 1 1800 = (⟨false, []⟩, Option.none) ∧
    analyzeSalesData (.dict [("total_rows", .int 42)]) ⟨false, []⟩
        (some "u1") (some "u1/f.csv") = (.dict [("total_rows", .int 42)], ⟨false, []⟩) ∧
    forecastDemand (.dict [("trend", .str "increasing")]) ⟨false, []⟩ 30
        (some "u1") (some "u1/f.csv")
      = (.dict [("trend", .str "increasing")], ⟨false, []⟩) :=
  cache_disabled_degradation ⟨false, []⟩ rfl "analytics:u1:f.csv" "analytics:u1:*"
    "u1" "u1/f.csv" (.int 7) (.dict [("total_rows", .int 42)])
    (.dict [("trend", .str "increasing")]) 1800 30 1

/-! # Claim C10 — rate limiting is unenforced while the cache is disabled -/

/-- C10: with the cache store disabled, `track_api_usage` returns `None`
for every user and endpoint, so `check_rate_limit` never raises the 429
rate-limit error — hourly per-user endpoint limits are not enforced at
all while the backend is unreachable. -/
theorem rate_limit_unenforced_when_disabled (st : CacheState)
    (hd : st.enabled = false) (userId endpoint : String) (limit : Int) :
    trackApiUsage st userId endpoint = (st, Option.none) ∧
    checkRateLimit st userId endpoint limit = (st, false) := by
  constructor
  · simp [trackApiUsage, cacheIncrement, hd]
  · simp [checkRateLimit, trackApiUsage, cacheIncrement, hd]

/-- C10 witness: a disabled cache with a concrete user far past any
limit still produces no 429. -/
theorem rate_limit_unenforced_when_disabled_witness :
    trackApiUsage ⟨false, []⟩ "u1" "upload" = (⟨false, []⟩, Option.none) ∧
    checkRateLimit ⟨false, []⟩ "u1" "upload" 20 = (⟨false, []⟩, false) :=
  rate_limit_unenforced_when_disabled ⟨false, []⟩ rfl "u1" "upload" 20

/-! # Claim C1 — delete_user_file leaves preview caches live -/

/-- The stale preview document cached before the delete. -/
def c1Preview : PyVal :=
  .dict [("blob_name", .str "u1/abc_data.csv"), ("total_rows", .int 42)]

/-- A cache state holding an analytics entry, a forecast entry, the file
list and a preview for dataset `u1/abc_data.csv`, all cached before the
dataset is deleted. -/
def c1State : CacheState :=
  ⟨true,
    [(analyticsKey "u1" "u1/abc_data.csv",
        ⟨serialize (.dict [("total_rows", .int 42)]), 1800⟩),
     (forecastKey "u1" "u1/abc_data.csv" 30,
        ⟨serialize (.dict [("trend", .str "up")]), 3600⟩),
     (fileListKey "u1", ⟨serialize (.list [.str "u1/abc_data.csv"]), 300⟩),
     (previewKey "u1" "u1/abc_data.csv" 10, ⟨serialize c1Preview, 300⟩)]⟩

/-- The cache state after `delete_user_file("u1/abc_data.csv", "u1")`
ran its invalidations (file_handler.py lines 236-238). -/
def c1After : CacheState :=
  deleteUserFileCacheEffect c1State "u1" "u1/abc_data.csv"

/-- C1: `delete_user_file` invalidates the file-list, analytics and
forecast entries of the deleted dataset, but performs no invalidation of
the `preview:` namespace: the preview entry survives, and a subsequent
`get_dataframe_preview` — although the blob is gone (`loadPreview =
none` would be a 404 on a miss) — returns the stale cached preview
instead of a not-found error.  This contradicts the claim and the
function's own docstring/log line ("invalidate all related caches" /
"All caches invalidated"). -/
theorem delete_user_file_leaves_stale_preview :
    cacheGet c1After (analyticsKey "u1" "u1/abc_data.csv") = .none ∧
    cacheGet c1After (forecastKey "u1" "u1/abc_data.csv" 30) = .none ∧
    cacheGet c1After (fileListKey "u1") = .none ∧
    cacheGet c1After (previewKey "u1" "u1/abc_data.csv" 10) = c1Preview ∧
    getDataframePreview Option.none c1After "u1" "u1/abc_data.csv" 10
      = .ok (c1Preview, c1After) := by
  refine ⟨rfl, rfl, rfl, rfl, rfl⟩

/-! # Claim C3 — the search quota counter never touches the cache store -/

/-- An enabled cache state with an unrelated key, used to observe that
`SearchManager.search` leaves the store untouched. -/
def c3State : CacheState :=
  ⟨true, [("api_usage:u1:upload", ⟨.int 3, 3600⟩)]⟩

/-- C3 (counterexample): with the cache store enabled, a successful
search is recorded — the local usage count rises from 3 to 4 — yet the
cache store is byte-for-byte unchanged: the daily search-quota counter
is not recorded through the Cache Store's atomic increment even when the
store is enabled (research.py keeps it only in `search_usage.json`). -/
theorem search_quota_ignores_cache_store :
    c3State.enabled = true ∧
    (searchWithCache c3State ⟨3, 7⟩ 7 (.success 5)).1 = c3State ∧
    (searchWithCache c3State ⟨3, 7⟩ 7 (.success 5)).2.1 = ⟨4, 7⟩ := by
  refine ⟨rfl, rfl, rfl⟩

/-- C3 (amended): the daily search-quota counter lives solely in the
SearchManager's local usage data (persisted to the local usage file);
the cache store passes through every search unchanged whether enabled or
disabled, and a successful search within quota increments the local
count by exactly one. -/
theorem search_quota_local_only (cacheSt : CacheState) (u : UsageData)
    (today n : Nat) :
    (searchWithCache cacheSt u today (.success n)).1 = cacheSt ∧
    (canSearch (resetIfNeeded u today) = true →
      (searchWithCache cacheSt u today (.success n)).2.1.count
        = (resetIfNeeded u today).count + 1) := by
  constructor
  · rfl
  · intro h
    simp [searchWithCache, searchStep, h]

/-- C3 witness: the amended theorem at a concrete enabled store and a
counter of 3 on the current day. -/
theorem search_quota_local_only_witness :
    (searchWithCache c3State ⟨3, 7⟩ 7 (.success 5)).1 = c3State ∧
    canSearch (resetIfNeeded ⟨3, 7⟩ 7) = true ∧
    (searchWithCache c3State ⟨3, 7⟩ 7 (.success 5)).2.1.count
      = (resetIfNeeded ⟨3, 7⟩ 7).count + 1 :=
  ⟨(search_quota_local_only c3State ⟨3, 7⟩ 7 5).1, by decide,
   (search_quota_local_only c3State ⟨3, 7⟩ 7 5).2 (by decide)⟩

/-! # Claim C8 — daily quota invariants -/

/-- Running `K` successful searches starting from a fresh counter on day `d`
reach `min (c + K) (max c 100)`: the counter climbs by one per search
until the 100 ceiling and then stays put. -/
theorem iterateSearch_count (k c d : Nat) :
    iterateSearch k ⟨c, d⟩ d = ⟨min (c + k) (max c 100), d⟩ := by
  induction k generalizing c with
  | zero =>
      have h0 : min (c + 0) (max c 100) = c := by omega
      rw [h0]
      rfl
  | succ k ih =>
      by_cases hc : c < 100
      · have hstep : (searchStep ⟨c, d⟩ d (.success 5)).1 = ⟨c + 1, d⟩ := by
          simp [searchStep, resetIfNeeded, canSearch, hc]
        have h1 : min (c + 1 + k) (max (c + 1) 100)
            = min (c + (k + 1)) (max c 100) := by omega
        simp only [iterateSearch, hstep, ih, h1]
      · have hstep : (searchStep ⟨c, d⟩ d (.success 5)).1 = ⟨c, d⟩ := by
          simp [searchStep, resetIfNeeded, canSearch, hc]
        have h1 : min (c + k) (max c 100)
            = min (c + (k + 1)) (max c 100) := by omega
        simp only [iterateSearch, hstep, ih, h1]

/-- C8: (a) within one calendar day the count never decreases and the
recorded day is unchanged; (b) when the stored date differs from today
the counter is reset to zero exactly once — the reset produces
`⟨0, today⟩` and is idempotent for the rest of the day; (c) starting
from a fresh counter, after recording usage `K ≥ 100` times on the same
day a further search is refused with the distinguished quota error; (d)
it is permitted again (and succeeds) once the date advances by one
day. -/
theorem quota_invariants (u : UsageData) (d k n : Nat) (api : ApiResult) :
    (u.date = d → (searchStep u d api).1.count ≥ u.count ∧
                  (searchStep u d api).1.date = d) ∧
    (u.date ≠ d → resetIfNeeded u d = ⟨0, d⟩) ∧
    resetIfNeeded (resetIfNeeded u d) d = resetIfNeeded u d ∧
    (k ≥ 100 →
      (searchStep (iterateSearch k ⟨0, d⟩ d) d api).2 = .quotaExhausted) ∧
    (searchStep (iterateSearch 100 ⟨0, d⟩ d) (d + 1) (.success n)).1
        = ⟨1, d + 1⟩ ∧
    (searchStep (iterateSearch 100 ⟨0, d⟩ d) (d + 1) (.success n)).2
        = .results n := by
  refine ⟨?_, ?_, ?_, ?_, ?_, ?_⟩
  · intro hu
    obtain ⟨c, dd⟩ := u
    simp only at hu
    subst hu
    by_cases hc : c < 100
    · cases api <;> simp [searchStep, resetIfNeeded, canSearch, hc]
    · cases api <;> simp [searchStep, resetIfNeeded, canSearch, hc]
  · intro hu
    simp [resetIfNeeded, hu]
  · by_cases hu : u.date = d <;> simp [resetIfNeeded, hu]
  · intro hk
    rw [iterateSearch_count]
    have h100 : min (0 + k) (max 0 100) = 100 := by omega
    rw [h100]
    simp [searchStep, resetIfNeeded, canSearch]
  · rw [iterateSearch_count]
    have h100 : min (0 + 100) (max 0 100) = 100 := by omega
    rw [h100]
    simp [searchStep, resetIfNeeded, canSearch]
  · rw [iterateSearch_count]
    have h100 : min (0 + 100) (max 0 100) = 100 := by omega
    rw [h100]
    simp [searchStep, resetIfNeeded, canSearch]

/-- C8 witness: the invariants at day 7, `K = 100` recorded usages,
api success with 5 items, and a stale counter from day 6. -/
theorem quota_invariants_witness :
    ((⟨3, 7⟩ : UsageData).date = 7 →
      (searchStep ⟨3, 7⟩ 7 (.success 5)).1.count ≥ 3 ∧
      (searchStep ⟨3, 7⟩ 7 (.success 5)).1.date = 7) ∧
    ((⟨3, 7⟩ : UsageData).date ≠ 6 → resetIfNeeded ⟨3, 7⟩ 6 = ⟨0, 6⟩) ∧
    resetIfNeeded (resetIfNeeded ⟨3, 7⟩ 6) 6 = resetIfNeeded ⟨3, 7⟩ 6 ∧
    (100 ≥ 100 →
      (searchStep (iterateSearch 100 ⟨0, 7⟩ 7) 7 (.success 5)).2
        = .quotaExhausted) ∧
    (searchStep (iterateSearch 100 ⟨0, 7⟩ 7) (7 + 1) (.success 5)).1
        = ⟨1, 7 + 1⟩ ∧
    (searchStep (iterateSearch 100 ⟨0, 7⟩ 7) (7 + 1) (.success 5)).2
        = .results 5 := by
  have h1 := quota_invariants ⟨3, 7⟩ 7 100 5 (.success 5)
  have h2 := quota_invariants ⟨3, 7⟩ 6 100 5 (.success 5)
  have h3 := quota_invariants ⟨0, 7⟩ 7 100 5 (.success 5)
  exact ⟨h1.1, h2.2.1, h2.2.2.1, h3.2.2.2.1, h3.2.2.2.2.1, h3.2.2.2.2.2⟩

/-! # Claim C4 — loop termination at the iteration cap -/

/-- Fuel-generic form: if every completion requests at least one tool
call, the loop consumes all its fuel, makes one model request per unit
of fuel, and ends in the fallback terminal answer. -/
theorem callLlmLoop_always_tools (model : List Message → ModelResponse)
    (execFn : String → List (String × PyVal) → Except String PyVal)
    (context : List (String × PyVal))
    (h : ∀ msgs, (model msgs).toolCalls ≠ []) :
    ∀ (fuel : Nat) (msgs : List Message) (rounds : Nat)
      (calls : List HandlerCall),
      (callLlmLoop model execFn context fuel msgs rounds calls).response
          = fallbackResponse ∧
      (callLlmLoop model execFn context fuel msgs rounds calls).rounds
          = rounds + fuel := by
  intro fuel
  induction fuel with
  | zero => intro msgs rounds calls; exact ⟨rfl, rfl⟩
  | succ fuel ih =>
      intro msgs rounds calls
      have hne : (model msgs).toolCalls.isEmpty = false := by
        simpa [List.isEmpty_iff] using h msgs
      simp only [callLlmLoop, hne, Bool.false_eq_true, if_false]
      refine ⟨(ih _ _ _).1, ?_⟩
      rw [(ih _ _ _).2]
      omega

/-- C4: for a model stub that requests at least one tool call on every
completion, `call_llm_with_functions` terminates after exactly
`maxIterations` model rounds and returns the fallback terminal
message. -/
theorem loop_terminates_at_cap (model : List Message → ModelResponse)
    (execFn : String → List (String × PyVal) → Except String PyVal)
    (context : List (String × PyVal)) (prompt : String) (maxIterations : Nat)
    (h : ∀ msgs, (model msgs).toolCalls ≠ []) :
    (call_llm_with_functions model execFn context prompt
        maxIterations).response = fallbackResponse ∧
    (call_llm_with_functions model execFn context prompt
        maxIterations).rounds = maxIterations := by
  have := callLlmLoop_always_tools model execFn context h maxIterations
    [.user prompt] 0 []
  simpa [call_llm_with_functions] using this

/-- A model stub that always requests one tool call. -/
def alwaysToolModel : List Message → ModelResponse :=
  fun _ => ⟨Option.none, [⟨"call_1", "list_available_files", .ok []⟩]⟩

/-- An executor stub that always succeeds. -/
def okExecutor : String → List (String × PyVal) → Except String PyVal :=
  fun _ _ => .ok (.dict [("status", .str "success")])

/-- C4 witness: with the always-tool-calling stub and the default cap of
5, the loop makes exactly 5 model rounds and returns the fallback
message. -/
theorem loop_terminates_at_cap_witness :
    (call_llm_with_functions alwaysToolModel okExecutor
        [("user_id", .str "u1")] "analyze my sales" 5).response
      = fallbackResponse ∧
    (call_llm_with_functions alwaysToolModel okExecutor
        [("user_id", .str "u1")] "analyze my sales" 5).rounds = 5 :=
  loop_terminates_at_cap alwaysToolModel okExecutor [("user_id", .str "u1")]
    "analyze my sales" 5 (fun _ => List.cons_ne_nil _ _)

/-! # Claim C5 — context precedence in argument merging -/

theorem pyLookup_append (d1 d2 : List (String × PyVal)) (k : String) :
    pyLookup (d1 ++ d2) k
      = match pyLookup d1 k with
        | some v => some v
        | Option.none => pyLookup d2 k := by
  induction d1 with
  | nil => simp [pyLookup]
  | cons hd tl ih =>
      obtain ⟨k', v'⟩ := hd
      by_cases h : k' = k <;> simp [pyLookup, h, ih]

theorem pyLookup_none_of_any_false (d : List (String × PyVal)) (k : String)
    (h : d.any (fun e => e.1 = k) = false) : pyLookup d k = Option.none := by
  induction d with
  | nil => rfl
  | cons hd tl ih =>
      obtain ⟨k', v'⟩ := hd
      simp only [List.any_cons, Bool.or_eq_false_iff] at h
      have hk : ¬ k' = k := by simpa using h.1
      simp [pyLookup, hk, ih h.2]

/-- How `dict.__setitem__` affects lookups: the written key now maps to
the new value, every other key is untouched. -/
theorem pyLookup_dictSet (d : List (String × PyVal)) (k : String) (v : PyVal)
    (k' : String) :
    pyLookup (dictSet d k v) k'
      = if k' = k then some v else pyLookup d k' := by
  induction d with
  | nil =>
      by_cases hk : k' = k
      · subst hk
        simp [dictSet, pyLookup]
      · simp [dictSet, pyLookup, hk, Ne.symm hk]
  | cons hd rest ih =>
      obtain ⟨k0, v0⟩ := hd
      by_cases h0 : k0 = k
      · subst h0
        by_cases hk : k' = k0
        · subst hk
          simp [dictSet, pyLookup]
        · simp [dictSet, pyLookup, hk, Ne.symm hk]
      · by_cases hk : k0 = k'
        · subst hk
          simp [dictSet, pyLookup, h0]
        · simp [dictSet, pyLookup, h0, hk, ih]

theorem pyLookup_none_of_not_mem (d : List (String × PyVal)) (k : String)
    (h : k ∉ d.map Prod.fst) : pyLookup d k = Option.none := by
  induction d with
  | nil => rfl
  | cons hd tl ih =>
      obtain ⟨k', v'⟩ := hd
      simp only [List.map_cons, List.mem_cons] at h
      push_neg at h
      simp [pyLookup, Ne.symm h.1, ih h.2]

/-- How `dict.update` affects lookups: a key present in the context maps
to the context's value; any other key keeps the model-supplied value. -/
theorem pyLookup_dictUpdate (d ctx : List (String × PyVal)) (k : String)
    (hctx : (ctx.map Prod.fst).Nodup) :
    pyLookup (dictUpdate d ctx) k
      = match pyLookup ctx k with
        | some v => some v
        | Option.none => pyLookup d k := by
  induction ctx generalizing d with
  | nil => rfl
  | cons hd rest ih =>
      obtain ⟨k0, v0⟩ := hd
      simp only [List.map_cons, List.nodup_cons] at hctx
      have hupd : dictUpdate d ((k0, v0) :: rest)
          = dictUpdate (dictSet d k0 v0) rest := rfl
      rw [hupd, ih (dictSet d k0 v0) hctx.2]
      by_cases hk : k = k0
      · subst hk
        have hrest : pyLookup rest k = Option.none :=
          pyLookup_none_of_not_mem rest k hctx.1
        simp [hrest, pyLookup, pyLookup_dictSet]
      · simp only [pyLookup, if_neg (by simpa using Ne.symm hk)]
        cases hh : pyLookup rest k <;>
          simp [hh, pyLookup_dictSet, hk]

/-- Handler calls recorded in one round all carry context-merged
arguments: any key the context defines has the context's value. -/
theorem roundCalls_context_wins
    (execFn : String → List (String × PyVal) → Except String PyVal)
    (context : List (String × PyVal)) (resp : ModelResponse)
    (k : String) (v : PyVal)
    (hctx : (context.map Prod.fst).Nodup)
    (hv : pyLookup context k = some v) :
    ∀ c ∈ roundCalls execFn context resp, pyLookup c.2 k = some v := by
  intro c hc
  simp only [roundCalls, List.mem_flatten, List.mem_map] at hc
  obtain ⟨l, ⟨tc, htc, hl⟩, hcl⟩ := hc
  subst hl
  cases harg : tc.args with
  | bad => simp [processToolCall, harg] at hcl
  | ok args =>
      have hgoal : pyLookup (dictUpdate args context) k = some v := by
        rw [pyLookup_dictUpdate _ _ _ hctx, hv]
      cases hex : execFn tc.name (dictUpdate args context) with
      | ok r =>
          simp only [processToolCall, harg, hex, List.mem_singleton] at hcl
          rw [hcl]
          exact hgoal
      | error e =>
          simp only [processToolCall, harg, hex, List.mem_singleton] at hcl
          rw [hcl]
          exact hgoal

/-- Fuel-generic invariant: every handler call the loop ever records
carries the context's value for any context key. -/
theorem callLlmLoop_context_wins (model : List Message → ModelResponse)
    (execFn : String → List (String × PyVal) → Except String PyVal)
    (context : List (String × PyVal)) (k : String) (v : PyVal)
    (hctx : (context.map Prod.fst).Nodup)
    (hv : pyLookup context k = some v) :
    ∀ (fuel : Nat) (msgs : List Message) (rounds : Nat)
      (calls : List HandlerCall),
      (∀ c ∈ calls, pyLookup c.2 k = some v) →
      ∀ c ∈ (callLlmLoop model execFn context fuel msgs rounds calls).calls,
        pyLookup c.2 k = some v := by
  intro fuel
  induction fuel with
  | zero => intro msgs rounds calls hacc c hc; exact hacc c hc
  | succ fuel ih =>
      intro msgs rounds calls hacc c hc
      by_cases hne : (model msgs).toolCalls.isEmpty
      · rw [callLlmLoop, if_pos hne] at hc
        exact hacc c hc
      · rw [callLlmLoop, if_neg hne] at hc
        refine ih _ _ _ ?_ c hc
        intro c' hc'
        rcases List.mem_append.mp hc' with h | h
        · exact hacc c' h
        · exact roundCalls_context_wins execFn context (model msgs)
            k v hctx hv c' h

/-- C5: whatever argument maps the model supplies and whatever the
executor does, every invocation of the capability handler receives the
context's value for each key the invocation context defines — in
particular a model-supplied `user_id` can never override the
authenticated context `user_id`. -/
theorem context_precedence (model : List Message → ModelResponse)
    (execFn : String → List (String × PyVal) → Except String PyVal)
    (context : List (String × PyVal)) (prompt : String)
    (maxIterations : Nat) (k : String) (v : PyVal)
    (hctx : (context.map Prod.fst).Nodup)
    (hv : pyLookup context k = some v) :
    ∀ c ∈ (call_llm_with_functions model execFn context prompt
        maxIterations).calls, pyLookup c.2 k = some v := by
  intro c hc
  exact callLlmLoop_context_wins model execFn context k v hctx hv
    maxIterations [.user prompt] 0 [] (by intro c' hc'; cases hc') c hc

/-- A model stub that supplies `user_id: "attacker"` on its first
completion and then stops. -/
def impersonationModel : List Message → ModelResponse :=
  fun msgs =>
    if msgs.length ≤ 1 then
      ⟨Option.none,
       [⟨"call_1", "analyze_sales_file",
         .ok [("filename", .str "sales.csv"), ("user_id", .str "attacker")]⟩]⟩
    else ⟨some "done", []⟩

/-- C5 witness: with the invocation context `user_id: "owner"` and the
model supplying `user_id: "attacker"`, the one recorded handler call
received `user_id: "owner"`. -/
theorem context_precedence_witness :
    pyLookup (((call_llm_with_functions impersonationModel okExecutor
        [("user_id", .str "owner")] "hi" 5).calls.headD
          ("", [])).2) "user_id" = some (.str "owner") := by
  have h := context_precedence impersonationModel okExecutor
    [("user_id", .str "owner")] "hi" 5 "user_id" (.str "owner")
    (by simp) rfl
  have hcalls : (call_llm_with_functions impersonationModel okExecutor
      [("user_id", .str "owner")] "hi" 5).calls
      = [("analyze_sales_file",
          [("filename", .str "sales.csv"), ("user_id", .str "owner")])] := rfl
  refine h _ ?_
  rw [hcalls]
  simp

/-! # Claim C9 — malformed tool-call arguments are recovered locally -/

/-- C9: when a requested tool call's arguments fail to parse, (a) that
call resolves to a tool-result message for its id carrying the
structured invalid-arguments payload with no handler invocation, (b)
that message is among the round's appended messages (one per requested
call, the others processed normally), and (c) the loop proceeds to the
next round on the grown conversation instead of aborting or raising. -/
theorem malformed_args_recovered
    (execFn : String → List (String × PyVal) → Except String PyVal)
    (context : List (String × PyVal)) (tc : ToolCall) (h : tc.args = .bad)
    (model : List Message → ModelResponse) (msgs : List Message)
    (fuel rounds : Nat) (calls : List HandlerCall)
    (hne : (model msgs).toolCalls ≠ []) (hmem : tc ∈ (model msgs).toolCalls) :
    processToolCall execFn context tc
        = (.tool tc.id invalidArgsPayload, []) ∧
    Message.tool tc.id invalidArgsPayload
        ∈ roundMessages execFn context (model msgs) ∧
    callLlmLoop model execFn context (fuel + 1) msgs rounds calls
      = callLlmLoop model execFn context fuel
          (msgs ++ roundMessages execFn context (model msgs)) (rounds + 1)
          (calls ++ roundCalls execFn context (model msgs)) := by
  have h1 : processToolCall execFn context tc
      = (.tool tc.id invalidArgsPayload, []) := by
    simp [processToolCall, h]
  refine ⟨h1, ?_, ?_⟩
  · simp only [roundMessages, List.mem_cons]
    right
    exact List.mem_map.mpr ⟨tc, hmem, by rw [h1]⟩
  · have hne' : (model msgs).toolCalls.isEmpty = false := by
      simpa [List.isEmpty_iff] using hne
    rw [callLlmLoop]
    simp [hne']

/-- A model stub whose first completion requests a malformed call and a
well-formed call, and whose second completion is a final answer. -/
def badArgsModel : List Message → ModelResponse :=
  fun msgs =>
    if msgs.length ≤ 1 then
      ⟨Option.none,
       [⟨"call_bad", "analyze_sales_file", .bad⟩,
        ⟨"call_good", "list_available_files", .ok [("user_id", .str "u1")]⟩]⟩
    else ⟨some "done", []⟩

/-- C9 witness: the recovery theorem at the two-call stub round. -/
theorem malformed_args_recovered_witness :
    processToolCall okExecutor [("user_id", .str "u1")]
        ⟨"call_bad", "analyze_sales_file", .bad⟩
      = (.tool "call_bad" invalidArgsPayload, []) ∧
    Message.tool "call_bad" invalidArgsPayload
      ∈ roundMessages okExecutor [("user_id", .str "u1")]
          (badArgsModel [.user "hi"]) ∧
    callLlmLoop badArgsModel okExecutor [("user_id", .str "u1")] (4 + 1)
        [.user "hi"] 0 []
      = callLlmLoop badArgsModel okExecutor [("user_id", .str "u1")] 4
          ([.user "hi"] ++ roundMessages okExecutor [("user_id", .str "u1")]
            (badArgsModel [.user "hi"])) (0 + 1)
          ([] ++ roundCalls okExecutor [("user_id", .str "u1")]
            (badArgsModel [.user "hi"])) :=
  malformed_args_recovered okExecutor [("user_id", .str "u1")]
    ⟨"call_bad", "analyze_sales_file", .bad⟩ rfl badArgsModel [.user "hi"]
    4 0 [] (List.cons_ne_nil _ _) (List.mem_cons_self _ _)

/-! # Claim C6 — pattern deletion removes exactly the matching keys -/

theorem matchingKeys_append (pattern : String)
    (l1 l2 : List (String × Entry)) :
    matchingKeys pattern (l1 ++ l2)
      = matchingKeys pattern l1 ++ matchingKeys pattern l2 := by
  simp [matchingKeys, List.filter_append]

/-- The scan loop, run with enough fuel, deletes from the store exactly
the entries whose keys match the pattern among the pending slice, and
adds the number of matching pending keys to the count. -/
theorem deletePatternLoop_spec (pattern : String) (b : Nat) (hb : b ≠ 0) :
    ∀ (fuel : Nat) (pending : List (String × Entry)),
      pending.length ≤ fuel →
      ∀ (store : List (String × Entry)) (count : Nat),
        deletePatternLoop pattern b fuel pending store count
          = (store.filter
              (fun e => !((matchingKeys pattern pending).contains e.1)),
             count + (matchingKeys pattern pending).length) := by
  intro fuel
  induction fuel with
  | zero =>
      intro pending hlen store count
      have hnil : pending = [] := List.length_eq_zero.mp (Nat.le_zero.mp hlen)
      subst hnil
      simp [deletePatternLoop, matchingKeys]
  | succ fuel ih =>
      intro pending hlen store count
      cases pending with
      | nil => simp [deletePatternLoop, matchingKeys]
      | cons x rest =>
          rw [deletePatternLoop, if_neg hb]
          have hlen' : ((x :: rest).drop b).length ≤ fuel := by
            simp only [List.length_drop, List.length_cons] at *
            omega
          rw [ih _ hlen' _ _]
          have hsplit : matchingKeys pattern (x :: rest)
              = matchingKeys pattern ((x :: rest).take b)
                ++ matchingKeys pattern ((x :: rest).drop b) := by
            rw [← matchingKeys_append, List.take_append_drop]
          rw [hsplit]
          refine Prod.ext ?_ ?_
          · simp only [List.filter_filter]
            refine List.filter_congr ?_
            intro e _
            simp only [List.elem_eq_mem, List.mem_append, decide_not]
            by_cases h1 : e.1 ∈ matchingKeys pattern ((x :: rest).take b) <;>
              by_cases h2 : e.1 ∈ matchingKeys pattern ((x :: rest).drop b) <;>
                simp [h1, h2]
          · simp only [List.length_append]
            omega

/-- Keys appearing in the store that match the pattern are exactly the
keys `matchingKeys` of the whole store contains. -/
theorem matchingKeys_contains_of_mem (pattern : String)
    (l : List (String × Entry)) (e : String × Entry) (he : e ∈ l) :
    (matchingKeys pattern l).contains e.1 = globMatchS pattern e.1 := by
  simp only [List.elem_eq_mem, matchingKeys]
  by_cases hg : globMatchS pattern e.1 = true
  · rw [hg, decide_eq_true_eq]
    exact List.mem_filter.mpr ⟨List.mem_map.mpr ⟨e, he, rfl⟩, hg⟩
  · have hg' : globMatchS pattern e.1 = false := by
      cases hgb : globMatchS pattern e.1
      · rfl
      · exact absurd hgb hg
    rw [hg']
    simp only [decide_eq_false_iff_not]
    intro hmem
    exact absurd (List.mem_filter.mp hmem).2 (by simp [hg'])

/-- C6: with the cache enabled, `delete_pattern(pattern)` (batch size
100, one pipelined transaction per scanned batch) leaves the store
holding exactly the entries whose keys do not match the glob pattern —
so all N matching keys are removed and the M non-matching keys remain —
and returns N, the number of matching keys. -/
theorem delete_pattern_spec (st : CacheState) (hen : st.enabled = true)
    (pattern : String) :
    (cacheDeletePattern st pattern).1.store
        = st.store.filter (fun e => !(globMatchS pattern e.1)) ∧
    (cacheDeletePattern st pattern).2
        = (st.store.filter (fun e => globMatchS pattern e.1)).length := by
  unfold cacheDeletePattern
  simp only [hen, if_true, if_neg (by decide : ¬ (100 = 0))]
  rw [deletePatternLoop_spec pattern 100 (by decide) st.store.length
    st.store le_rfl st.store 0]
  constructor
  · refine List.filter_congr ?_
    intro e he
    rw [matchingKeys_contains_of_mem pattern st.store e he]
  · simp only [Nat.zero_add, matchingKeys]
    rw [List.filter_map]
    rw [List.length_map]
    refine congrArg List.length (List.filter_congr ?_)
    intro e _
    rfl

/-- A store with two keys matching `analytics:u1:*` and two keys not
matching it. -/
def c6State : CacheState :=
  ⟨true,
    [(analyticsKey "u1" "u1/a.csv", ⟨.int 1, 1800⟩),
     (fileListKey "u2", ⟨.int 2, 300⟩),
     (analyticsKey "u1" "u1/b.csv", ⟨.int 3, 1800⟩),
     (analyticsKey "u2" "u2/c.csv", ⟨.int 4, 1800⟩)]⟩

/-- C6 witness: on the concrete four-key store, deleting
`analytics:u1:*` removes exactly the two matching keys, returns 2, and
the two non-matching keys remain retrievable with their values. -/
theorem delete_pattern_spec_witness :
    (cacheDeletePattern c6State "analytics:u1:*").1.store
        = c6State.store.filter (fun e => !(globMatchS "analytics:u1:*" e.1)) ∧
    (cacheDeletePattern c6State "analytics:u1:*").2 = 2 ∧
    cacheGet (cacheDeletePattern c6State "analytics:u1:*").1
        (fileListKey "u2") = .int 2 ∧
    cacheGet (cacheDeletePattern c6State "analytics:u1:*").1
        (analyticsKey "u2" "u2/c.csv") = .int 4 ∧
    cacheGet (cacheDeletePattern c6State "analytics:u1:*").1
        (analyticsKey "u1" "u1/a.csv") = .none := by
  have h := delete_pattern_spec c6State rfl "analytics:u1:*"
  refine ⟨h.1, ?_, rfl, rfl, rfl⟩
  rw [h.2]
  rfl

end BizPilot
